import Mathlib

/-!
# Verification of the Mindboggle pipeline driver (`mindboggle/mindboggler.py`)

This file gives a shallow embedding of the configuration logic of
`mindboggler.py` — the command-line argument record, the derived feature-flag
computation (lines 183-236), the early configuration/environment processing
(lines 169-260), the sweep-dimension inputs (lines 282-320), the result-sink
substitution list (lines 324-332), the sink destination keys created during
graph assembly, the module-level name-definition and name-reference structure of
the graph-assembly script, and the executor-policy selection (lines 1955-1968).

All definitions are transcribed from the source; the few places where the
behaviour is decided by repository code that is outside the provided source
tree (the `hashes_url()` data configuration and the nipype `DataSink`
substitution application) are modelled from the specification and marked as
such in their doc comments.
-/

/-- The `--surface_labels` choice (argparse `choices=['freesurfer', 'atlas',
'manual']`, default `freesurfer`), mindboggler.py lines 114-119. -/
inductive SurfaceLabelSource where
  | freesurfer
  | atlas
  | manual
deriving DecidableEq

/-- The parsed command-line arguments of mindboggler.py (lines 80-161).
`freesurfer_data` and `ants_data` are `nargs='+'` options, hence
`Option (List String)` (`none` when the flag is absent); `spectra`, `moments`
and `n` are `type=int`; the `action='store_true'` flags are `Bool`. -/
structure Args where
  SUBJECTS : List String
  o : String
  n : Int
  freesurfer_data : Option (List String)
  ants_data : Option (List String)
  surface_labels : SurfaceLabelSource
  atlases : Option (List String)
  sulci : Bool
  fundi : Bool
  spectra : Int
  moments : Int
  thickness : Bool
  antsurfer_labels : Bool
  no_volumes : Bool
  no_surfaces : Bool
  no_labels : Bool
  no_shapes : Bool
  vertices : Bool
  cluster : Bool
deriving DecidableEq

/-- Module-level constant, mindboggler.py line 183. -/
def do_input_vtk : Bool := false

/-- Module-level constant, mindboggler.py line 184. -/
def do_input_fs_labels : Bool := false

/-- Module-level constant, mindboggler.py line 185 (the commented-out
`--no_freesurfer_inputs` flag is never set, lines 186-190). -/
def use_FS_inputs : Bool := true

/-- Module-level constant, mindboggler.py line 200. -/
def do_smooth_fundi : Bool := false

/-- Module-level constant, mindboggler.py line 296. -/
def do_evaluate_surf_labels : Bool := false

/-- Local constant of the surface-workflow block, mindboggler.py line 438. -/
def use_white_surface : Bool := false

/-- The derived inclusion flags computed from the primary flags,
mindboggler.py lines 194-236. -/
structure Derived where
  do_surface : Bool
  do_volumes : Bool
  do_label : Bool
  do_features : Bool
  do_shapes : Bool
  do_sulci : Bool
  do_fundi : Bool
  do_spectra : Bool
  do_zernike : Bool
  do_freesurfer_thickness : Bool
  do_freesurfer_convexity : Bool
deriving DecidableEq

/-- The derived-flag computation of mindboggler.py lines 194-236, transcribed
statement by statement: `--antsurfer_labels` overwrites the three exclusion
flags with `False` (lines 202-205) before the inclusion flags are derived
(lines 206-236). -/
def deriveFlags (a : Args) : Derived :=
  let do_sulci := a.sulci
  let do_fundi := a.fundi
  let no_surfaces := if a.antsurfer_labels then false else a.no_surfaces
  let no_volumes := if a.antsurfer_labels then false else a.no_volumes
  let no_labels := if a.antsurfer_labels then false else a.no_labels
  let do_surface := if !no_surfaces then true else false
  let do_volumes := if !no_volumes then true else false
  let do_label := if !no_labels then true else false
  let do_features := if do_sulci || do_fundi then true else false
  let do_shapes := if !a.no_shapes then true else false
  let do_spectra :=
    if (do_label || do_features) && do_shapes then
      (if 0 < a.spectra then true else false)
    else false
  let do_zernike :=
    if (do_label || do_features) && do_shapes then
      (if 0 < a.moments then true else false)
    else false
  let do_freesurfer_thickness :=
    if do_shapes && use_FS_inputs then true else false
  let do_freesurfer_convexity :=
    if do_shapes && use_FS_inputs then true else false
  { do_surface := do_surface
    do_volumes := do_volumes
    do_label := do_label
    do_features := do_features
    do_shapes := do_shapes
    do_sulci := do_sulci
    do_fundi := do_fundi
    do_spectra := do_spectra
    do_zernike := do_zernike
    do_freesurfer_thickness := do_freesurfer_thickness
    do_freesurfer_convexity := do_freesurfer_convexity }

/-- Processing of `--ants_data` (mindboggler.py lines 169-179): absent (or the
Python-falsy empty list) leaves `do_ants = False` without error; exactly two
tokens become the data directory and the file stem with `do_ants = True`; any
other count reaches `sys.exit(...)`, modelled as `Except.error`. -/
def parse_ants_data :
    Option (List String) → Except String (Bool × Option (String × String))
  | none => Except.ok (false, none)
  | some [] => Except.ok (false, none)
  | some [d, s] => Except.ok (true, some (d, s))
  | some _ => Except.error "--ants_data should be followed by two strings"

/-- Modelled from the spec: the data configuration returned by `hashes_url()`
of `mindboggle.DATA` (not under the provided source tree); per §4.4 of the
spec it yields a URL, the name of the cache-override environment variable and
a platform default cache directory. -/
structure DataConfig where
  url : String
  cache_env : String
  cache_default : String

/-- Cache-root resolution, mindboggler.py lines 250-252: the value of the
configured cache environment variable when present, the platform default
from the data configuration otherwise. -/
def resolveCacheDir (env : String → Option String) (dc : DataConfig) : String :=
  match env dc.cache_env with
  | some v => v
  | none => dc.cache_default

/-- Effect of mindboggler.py lines 253-255 on the file system, modelled as a
directory-existence predicate: `os.mkdir(cache)` is performed only when the
resolved directory does not already exist. -/
def afterCacheSetup (fsExists : String → Bool) (cache : String) :
    String → Bool :=
  if fsExists cache then fsExists
  else fun p => if p = cache then true else fsExists p

/-- The configuration values established before any workflow construction
(`mbFlow = Workflow(...)` is line 304; everything here is lines 168-255). -/
structure Config where
  subjects : List String
  freesurfer_data : List String
  do_ants : Bool
  ants_data : Option (String × String)
  ccode_path : String
  cache : String
  flags : Derived

/-- The early configuration sequence of mindboggler.py lines 168-255, in
source order: subjects (168), FreeSurfer data directory falling back to
`$SUBJECTS_DIR` (170-172, `os.environ[...]` raising `KeyError` when absent),
`--ants_data` validation (173-179), derived flags (194-236), the
unconditional `os.environ['MINDBOGGLE_TOOLS']` read (246), and cache-root
resolution (250-252).  All of this precedes the construction of the workflow
graph, which consumes the resulting `Config`. -/
def configSetup (env : String → Option String) (dc : DataConfig) (a : Args) :
    Except String Config := do
  let freesurfer_data ←
    match a.freesurfer_data with
    | some fs => Except.ok fs
    | none =>
      match env "SUBJECTS_DIR" with
      | some v => Except.ok [v]
      | none => Except.error "KeyError: SUBJECTS_DIR"
  let ants ← parse_ants_data a.ants_data
  let ccode_path ←
    match env "MINDBOGGLE_TOOLS" with
    | some v => Except.ok v
    | none => Except.error "KeyError: MINDBOGGLE_TOOLS"
  Except.ok
    { subjects := a.SUBJECTS
      freesurfer_data := freesurfer_data
      do_ants := ants.1
      ants_data := ants.2
      ccode_path := ccode_path
      cache := resolveCacheDir env dc
      flags := deriveFlags a }

/-- The built-in volume atlas plus any `--atlases` values, mindboggler.py
lines 282-285 (`atlas_volumes = [...]` then `atlas_volumes.extend(args.atlases)`
when the flag is given); the values are used verbatim, in order. -/
def atlas_volumes (a : Args) : List String :=
  let base := ["OASIS-TRT-20_jointfusion_DKT31_CMA_labels_in_MNI152.nii.gz"]
  match a.atlases with
  | some extra => base ++ extra
  | none => base

/-- The subject sweep dimension, mindboggler.py lines 168 and 315-317:
`InputSubjects.iterables = ('subject', subjects)` with
`subjects = args.SUBJECTS` used verbatim. -/
def subjectsIterable (a : Args) : List String := a.SUBJECTS

/-- The hemisphere sweep dimension, mindboggler.py lines 318-320. -/
def hemisIterable : List String := ["lh", "rh"]

/-- The result-sink substitution list `Sink.inputs.substitutions`,
mindboggler.py lines 327-332, in declared order. -/
def substitutions : List (String × String) :=
  [("_hemi_lh", "left_surface"),
   ("_hemi_rh", "right_surface"),
   ("_subject_", ""),
   ("_atlas_", ""),
   ("smooth_skeletons.vtk", "smooth_fundi.vtk"),
   ("OASIS-TRT-20_jointfusion_DKT31_CMA_labels_in_MNI152.nii.gz", "atlas")]

/-- One pass of left-to-right, non-overlapping replacement of `pat` by `rep`,
on character lists, with explicit fuel (the fuel is the input length; every
step consumes at least one input character, so it suffices for the nonempty
patterns used here). -/
def substChars (pat rep : List Char) : Nat → List Char → List Char
  | _, [] => []
  | 0, s => s
  | Nat.succ fuel, c :: s =>
    if pat.isPrefixOf (c :: s) then
      rep ++ substChars pat rep fuel ((c :: s).drop pat.length)
    else
      c :: substChars pat rep fuel s

/-- Modelled from the spec: application of one sink substitution rule to a
path — the nipype `DataSink` (an external collaborator, §4.5 of the spec)
replaces every occurrence of the match pattern in the path string, exactly
Python `path.replace(pat, rep)`. -/
def applySubstitution (s : String) (sub : String × String) : String :=
  (substChars sub.1.toList sub.2.toList s.toList.length s.toList).asString

/-- Modelled from the spec: all substitution rules are applied in declared
order, each application operating on the result of the previous one (§3,
SinkRule invariant). -/
def applySubstitutions (subs : List (String × String)) (s : String) : String :=
  subs.foldl applySubstitution s

/-- The three executor policies selected by mindboggler.py lines 1955-1968:
the HTCondor cluster plugin, the bounded multi-process plugin with its worker
count, and the default sequential run. -/
inductive ExecPolicy where
  | condorDAGMan
  | multiProc (n_procs : Int)
  | linear
deriving DecidableEq

/-- Executor-policy selection, mindboggler.py lines 1955-1968, transcribed
with Python integer truthiness for `if args.n:` (`n = 0` is falsy). -/
def selectExecPolicy (cluster : Bool) (n : Int) : ExecPolicy :=
  if cluster then ExecPolicy.condorDAGMan
  else
    if n ≠ 0 then
      if 1 < n then ExecPolicy.multiProc n else ExecPolicy.linear
    else ExecPolicy.linear

/-- The argparse defaults of mindboggler.py lines 80-161 (with one subject and
an explicit `--freesurfer_data`, so that no environment fallback is needed). -/
def argsDefault : Args :=
  { SUBJECTS := ["sub1"]
    o := "/home/user/mindboggled"
    n := 1
    freesurfer_data := some ["/data/freesurfer"]
    ants_data := none
    surface_labels := SurfaceLabelSource.freesurfer
    atlases := none
    sulci := false
    fundi := false
    spectra := 0
    moments := 0
    thickness := false
    antsurfer_labels := false
    no_volumes := false
    no_surfaces := false
    no_labels := false
    no_shapes := false
    vertices := false
    cluster := false }

/-- An invocation passing `--antsurfer_labels` together with all three
exclusion flags `--no_surfaces --no_volumes --no_labels`. -/
def argsAntsurferAllExcluded : Args :=
  { argsDefault with
    antsurfer_labels := true
    no_surfaces := true
    no_volumes := true
    no_labels := true }

/-- An invocation whose command line repeats the subject `sub1` and passes
the built-in atlas volume again through `--atlases`. -/
def argsDupSweep : Args :=
  { argsDefault with
    SUBJECTS := ["sub1", "sub1"]
    atlases :=
      some ["OASIS-TRT-20_jointfusion_DKT31_CMA_labels_in_MNI152.nii.gz"] }

/-- An invocation passing `--ants_data` with a single token. -/
def argsBadAnts : Args :=
  { argsDefault with ants_data := some ["dirOnly"] }

/-- An invocation requesting ten spectrum eigenvalues and tenth-order
moments, with labels and shapes at their (enabled) defaults. -/
def argsSpectraMoments : Args :=
  { argsDefault with spectra := 10, moments := 10 }

/-- An invocation disabling surfaces, volumes, labels and shapes. -/
def argsAllOff : Args :=
  { argsDefault with
    no_surfaces := true
    no_volumes := true
    no_labels := true
    no_shapes := true }

/-- A concrete data configuration for witnesses. -/
def dcEx : DataConfig :=
  { url := "http://mindboggle.info/data"
    cache_env := "MINDBOGGLE_CACHE"
    cache_default := "/root/.cache/mindboggle" }

/-- An environment providing only `SUBJECTS_DIR`. -/
def envOnlySubjectsDir : String → Option String :=
  fun k => if k = "SUBJECTS_DIR" then some "/data/subjects" else none

/-- An environment providing only the cache-override variable of `dcEx`. -/
def envCacheSet : String → Option String :=
  fun k => if k = "MINDBOGGLE_CACHE" then some "/custom/cache" else none

/-- The empty environment. -/
def envEmpty : String → Option String := fun _ => none

/-- A file system on which no path exists yet. -/
def fsNone : String → Bool := fun _ => false

/-- Concatenation of guarded blocks: each block contributes its list exactly
when its guard (the conjunction of the enclosing `if` conditions in the
source) is true.  Used both for the sink destination keys and for the
name-reference trace of the assembly script. -/
def gjoin {α : Type} : List (Bool × List α) → List α
  | [] => []
  | p :: rest => (if p.1 then p.2 else []) ++ gjoin rest

/-- The destination keys of every `mbFlow.connect(..., Sink, key)` call in
mindboggler.py, each guarded by the conjunction of the `if` conditions
enclosing the call (source lines in the comments).  Only active code is
listed; commented-out connections are omitted. -/
def sinkPieces (a : Args) (A : Bool) : List (Bool × List String) :=
  let d := deriveFlags a
  [ -- line 554, inside do_surface / do_label / surface_labels == 'atlas':
   (d.do_surface && d.do_label &&
      decide (a.surface_labels = SurfaceLabelSource.atlas) && use_FS_inputs,
    ["labels.@DKT_surface"]),
   -- line 598, inside do_surface / do_label / surface_labels == 'freesurfer':
   (d.do_surface && d.do_label &&
      decide (a.surface_labels = SurfaceLabelSource.freesurfer) &&
      use_FS_inputs,
    ["labels.@Free_surface"]),
   -- line 668, inside do_surface / do_label:
   (d.do_surface && d.do_label, ["labels.@surface"]),
   -- line 772, inside do_surface / do_shapes / do_freesurfer_convexity:
   (d.do_surface && d.do_shapes && d.do_freesurfer_convexity,
    ["shapes.@freesurfer_convexity"]),
   -- line 788, inside do_surface / do_shapes / do_freesurfer_thickness:
   (d.do_surface && d.do_shapes && d.do_freesurfer_thickness,
    ["shapes.@freesurfer_thickness"]),
   -- lines 805-809, inside do_surface / do_shapes:
   (d.do_surface && d.do_shapes,
    ["shapes.@surface_area", "shapes.@travel_depth",
     "shapes.@geodesic_depth", "shapes.@mean_curvature"]),
   -- lines 845 and 868, inside do_surface / do_features / do_sulci:
   (d.do_surface && d.do_features && d.do_sulci,
    ["features.@folds", "features.@sulci"]),
   -- line 901, inside do_surface / do_features / do_fundi:
   (d.do_surface && d.do_features && d.do_fundi,
    ["features.@fundus_per_fold"]),
   -- line 960, additionally inside do_smooth_fundi:
   (d.do_surface && d.do_features && d.do_fundi && do_smooth_fundi,
    ["features.@smooth_fundi"]),
   -- line 987, inside do_surface / do_features / do_fundi:
   (d.do_surface && d.do_features && d.do_fundi,
    ["features.@fundus_per_sulcus"]),
   -- line 1197, inside do_surface / do_shapes:
   (d.do_surface && d.do_shapes, ["tables.@labels"]),
   -- line 1199, additionally inside do_sulci:
   (d.do_surface && d.do_shapes && d.do_sulci, ["tables.@sulci"]),
   -- line 1201, additionally inside do_fundi:
   (d.do_surface && d.do_shapes && d.do_fundi, ["tables.@fundi"]),
   -- line 1272, inside do_surface / do_shapes / args.vertices:
   (d.do_surface && d.do_shapes && a.vertices, ["tables.@vertices"]),
   -- line 1433, inside do_volumes and do_label:
   (d.do_volumes && d.do_label, ["labels.@cortex_and_noncortex_file"]),
   -- lines 1539 and 1609, additionally inside do_ants:
   (d.do_volumes && d.do_label && A,
    ["labels.@antsRegistration", "labels.@ants_filled"]),
   -- line 1689, additionally inside do_surface:
   (d.do_volumes && d.do_label && d.do_surface,
    ["labels.@freesurfer_filled"]),
   -- lines 1707 and 1718, additionally inside antsurfer_labels and do_ants:
   (d.do_volumes && d.do_label && a.antsurfer_labels && A,
    ["labels.@fs_cortex_ants_noncortex",
     "labels.@ants_cortex_fs_noncortex"]),
   -- line 1806, additionally inside do_shapes:
   (d.do_volumes && d.do_label && d.do_shapes,
    ["tables.@freesurfer_label_volumes"]),
   -- line 1826, additionally inside do_ants:
   (d.do_volumes && d.do_label && d.do_shapes && A,
    ["tables.@ants_label_volumes"]),
   -- lines 1849 and 1871, additionally inside antsurfer_labels:
   (d.do_volumes && d.do_label && d.do_shapes && A && a.antsurfer_labels,
    ["tables.@FreeSurfer_cortex_ANTs_noncortex_label_volumes",
     "tables.@FreeSurfer_noncortex_ants_cortex_label_volumes"]),
   -- line 1912, additionally inside args.thickness:
   (d.do_volumes && d.do_label && d.do_shapes && a.thickness,
    ["tables.@FreeSurfer_filled_cortex_label_thicknesses"]),
   -- line 1928, additionally inside do_ants:
   (d.do_volumes && d.do_label && d.do_shapes && a.thickness && A,
    ["tables.@ANTs_filled_cortex_label_thicknesses"])]

/-- The destination keys of the sink connections created during assembly,
under the given flag configuration. -/
def sinkDests (a : Args) (A : Bool) : List String :=
  gjoin (sinkPieces a A)

/-- The category of a sink destination key: the segment before the first
dot (nipype `DataSink` maps `cat.@name` to the `cat` subtree of the output
root). -/
def sinkCategory (s : String) : String :=
  (s.toList.takeWhile (fun c => !(c == '.'))).asString

/-- All destination keys that appear anywhere in `sinkPieces` (the guards are
discarded); independent of the flag configuration. -/
def allSinkDests : List String :=
  ((sinkPieces argsDefault false).map Prod.snd).flatten

/-- The module-level Python names of mindboggler.py whose definition is
conditional on the feature flags (workflow, node and helper variables bound
inside `if` blocks of the assembly script).  Names bound unconditionally
before line 341 (`mbFlow`, `Sink`, the `Input*` nodes, the protocol lists,
the parsed arguments and constants) are always defined and are therefore not
tracked. -/
inductive PyName where
  | FetchANTs
  | FetchAtlas
  | affine_to_mni
  | AffineFileList
  | ComposeAffine
  | WarpToSubjectFileList
  | warp_inverse_Booleans
  | Surf
  | ConvertSurf
  | ConvertWhiteSurf
  | SurfaceAtlas
  | SurfLabelFlow
  | Classifier
  | Classifier2vtk
  | Annot
  | FreeLabels
  | ManualSurfLabels
  | plug
  | plug1
  | plug2
  | ReindexLabels
  | WholeSurfShapeFlow
  | SurfaceArea
  | TravelDepth
  | RescaleTravelDepth
  | GeodesicDepth
  | CurvNode
  | ConvexNode
  | ThickNode
  | SurfFeatureFlow
  | FoldsNode
  | SulciNode
  | FoldFundi
  | LikelihoodNode
  | SmoothFundi
  | SulcusFundi
  | SurfFeatureShapeFlow
  | SpectraLabels
  | SpectraSulci
  | ZernikeLabels
  | ZernikeSulci
  | ShapeTables
  | VertexTable
  | asegNifti
  | filledNifti
  | mghOrig
  | asegMGH
  | asegMGH2Nifti
  | filledMGH
  | filledMGH2Nifti
  | VolLabelFlow
  | JoinSegs
  | RemoveMedial
  | FillBrain
  | SplitBrain
  | CreateHemiMask
  | MaskHemi
  | xfm
  | noANTSwm
  | noANTSgm
  | ants2gray
  | ants2white
  | antslabels
  | FS2gray
  | noFSgm
  | FS2white
  | FSlabels
  | ANTSwFSg
  | FSwANTSg
  | VolShapeFlow
  | FSVolTable
  | FSlabelVolumes
  | antsLabelVolumes
  | antsVolTable
  | FSgmANTSwmLabelVolumes
  | FSgmANTSwmVolTable
  | FSwANTSgLabelVolumes
  | ANTSgmFSwmVolTable
  | FSgmThicknesses
  | ANTSgmThicknesses
deriving DecidableEq

/-- The condition under which each tracked name is bound by the assembly
script: the conjunction of the `if` conditions enclosing its (earliest)
assignment.  Every reference recorded in `refPieces` occurs textually after
the corresponding assignment site, so a reference succeeds exactly when this
condition holds (the script is a single top-down pass). -/
def definedCond (d : Derived) (sl : SurfaceLabelSource)
    (A antsurfer thickness vertices : Bool) : PyName → Bool
  | .FetchANTs => A                                              -- line 345
  | .FetchAtlas => A                                             -- line 362
  | .affine_to_mni => A && (d.do_shapes || d.do_label)           -- line 382
  | .AffineFileList => A && d.do_shapes                          -- line 385
  | .ComposeAffine => A && d.do_shapes                           -- line 397
  | .WarpToSubjectFileList => A && d.do_label                    -- line 414
  | .warp_inverse_Booleans => A && d.do_label                    -- line 425
  | .Surf => d.do_surface                                        -- lines 440/446
  | .ConvertSurf => d.do_surface && !do_input_vtk                -- line 470
  | .ConvertWhiteSurf =>
    d.do_surface && !do_input_vtk && use_white_surface           -- line 478
  | .SurfaceAtlas =>
    d.do_surface &&
      (do_evaluate_surf_labels ||
        decide (sl = SurfaceLabelSource.manual)) && d.do_label   -- line 486
  | .SurfLabelFlow => d.do_surface && d.do_label                 -- line 504
  | .Classifier | .Classifier2vtk =>
    d.do_surface && d.do_label &&
      decide (sl = SurfaceLabelSource.atlas) && use_FS_inputs    -- lines 513/538
  | .Annot | .FreeLabels =>
    d.do_surface && d.do_label &&
      decide (sl = SurfaceLabelSource.freesurfer) && use_FS_inputs -- 567/581
  | .ManualSurfLabels =>
    d.do_surface && d.do_label &&
      decide (sl = SurfaceLabelSource.manual)                    -- line 607
  | .plug | .plug1 | .plug2 =>
    d.do_surface && d.do_label &&
      ((decide (sl = SurfaceLabelSource.atlas) && use_FS_inputs) ||
        (decide (sl = SurfaceLabelSource.freesurfer) && use_FS_inputs) ||
        decide (sl = SurfaceLabelSource.manual))                 -- 555/599/625
  | .ReindexLabels => d.do_surface && d.do_label                 -- line 652
  | .WholeSurfShapeFlow | .SurfaceArea | .TravelDepth
  | .GeodesicDepth | .CurvNode =>
    d.do_surface && d.do_shapes                                  -- 676-748
  | .RescaleTravelDepth =>
    d.do_surface && d.do_shapes && d.do_fundi                    -- line 703
  | .ConvexNode =>
    d.do_surface && d.do_shapes && d.do_freesurfer_convexity     -- line 758
  | .ThickNode =>
    d.do_surface && d.do_shapes && d.do_freesurfer_thickness     -- line 774
  | .SurfFeatureFlow => d.do_surface && d.do_features            -- line 817
  | .FoldsNode | .SulciNode =>
    d.do_surface && d.do_features && d.do_sulci                  -- 826/849
  | .FoldFundi | .SulcusFundi =>
    d.do_surface && d.do_features && d.do_fundi                  -- 877/965
  | .LikelihoodNode | .SmoothFundi =>
    d.do_surface && d.do_features && d.do_fundi && do_smooth_fundi -- 907/935
  | .SurfFeatureShapeFlow => d.do_surface && d.do_shapes         -- line 995
  | .SpectraLabels =>
    d.do_surface && d.do_shapes && d.do_spectra                  -- line 1003
  | .SpectraSulci =>
    d.do_surface && d.do_shapes && d.do_spectra && d.do_sulci    -- line 1027
  | .ZernikeLabels =>
    d.do_surface && d.do_shapes && d.do_zernike                  -- line 1040
  | .ZernikeSulci =>
    d.do_surface && d.do_shapes && d.do_zernike && d.do_sulci    -- line 1062
  | .ShapeTables => d.do_surface && d.do_shapes                  -- line 1077
  | .VertexTable => d.do_surface && d.do_shapes && vertices      -- line 1206
  | .asegNifti | .filledNifti =>
    d.do_volumes && d.do_label && do_input_fs_labels             -- 1314/1323
  | .mghOrig | .asegMGH | .asegMGH2Nifti | .filledMGH
  | .filledMGH2Nifti =>
    d.do_volumes && d.do_label && !do_input_fs_labels            -- 1336-1376
  | .VolLabelFlow | .JoinSegs | .RemoveMedial | .FillBrain
  | .SplitBrain | .CreateHemiMask | .MaskHemi =>
    d.do_volumes && d.do_label                                   -- 1391-1504
  | .xfm | .noANTSwm | .noANTSgm | .ants2gray | .ants2white
  | .antslabels =>
    d.do_volumes && d.do_label && A                              -- 1525-1591
  | .FS2gray | .noFSgm | .FS2white | .FSlabels =>
    d.do_volumes && d.do_label && d.do_surface                   -- 1618-1673
  | .ANTSwFSg | .FSwANTSg =>
    d.do_volumes && d.do_label && antsurfer && A                 -- 1699/1711
  | .VolShapeFlow | .FSVolTable | .FSlabelVolumes =>
    d.do_volumes && d.do_label && d.do_shapes                    -- 1766-1789
  | .antsLabelVolumes | .antsVolTable =>
    d.do_volumes && d.do_label && d.do_shapes && A               -- 1811/1818
  | .FSgmANTSwmLabelVolumes | .FSgmANTSwmVolTable
  | .FSwANTSgLabelVolumes | .ANTSgmFSwmVolTable =>
    d.do_volumes && d.do_label && d.do_shapes && A && antsurfer  -- 1831-1861
  | .FSgmThicknesses =>
    d.do_volumes && d.do_label && d.do_shapes && thickness       -- line 1880
  | .ANTSgmThicknesses =>
    d.do_volumes && d.do_label && d.do_shapes && thickness && A  -- line 1917

/-- `refPieces`, first part: the ANTs-transform and surface-input and
surface-label blocks (mindboggler.py lines 341-809). -/

def refPiecesSurfIn (d : Derived) (sl : SurfaceLabelSource)
    (A _antsurfer _thickness _vertices : Bool) :
    List (Bool × List PyName) :=
  [ -- lines 345-377 (if do_ants):
   (A, [.FetchANTs, .FetchAtlas]),
   -- lines 384-409 (if do_ants / if do_shapes):
   (A && d.do_shapes,
    [.AffineFileList, .affine_to_mni, .FetchANTs, .ComposeAffine]),
   -- lines 413-425 (if do_ants / if do_label):
   (A && d.do_label,
    [.WarpToSubjectFileList, .FetchANTs, .affine_to_mni]),
   -- lines 438-465 (if do_surface):
   (d.do_surface, [.Surf]),
   -- lines 469-476 (if do_surface / if not do_input_vtk):
   (d.do_surface && !do_input_vtk, [.ConvertSurf, .Surf]),
   -- lines 477-481 (additionally if use_white_surface):
   (d.do_surface && !do_input_vtk && use_white_surface,
    [.ConvertWhiteSurf, .ConvertSurf, .Surf]),
   -- lines 485-496 (if do_surface / evaluation or manual labels / do_label):
   (d.do_surface &&
      (do_evaluate_surf_labels ||
        decide (sl = SurfaceLabelSource.manual)) && d.do_label,
    [.SurfaceAtlas]),
   -- line 504 (if do_surface / if do_label):
   (d.do_surface && d.do_label, [.SurfLabelFlow]),
   -- lines 509-557 (surface_labels == 'atlas' branch):
   (d.do_surface && d.do_label &&
      decide (sl = SurfaceLabelSource.atlas) && use_FS_inputs,
    [.Classifier, .SurfLabelFlow, .Classifier2vtk]),
   -- lines 547-548 (inner if do_input_vtk):
   (d.do_surface && d.do_label &&
      decide (sl = SurfaceLabelSource.atlas) && use_FS_inputs &&
      do_input_vtk,
    [.Surf, .SurfLabelFlow]),
   -- lines 550-552 (inner else):
   (d.do_surface && d.do_label &&
      decide (sl = SurfaceLabelSource.atlas) && use_FS_inputs &&
      !do_input_vtk,
    [.ConvertSurf, .SurfLabelFlow]),
   -- lines 562-589 (surface_labels == 'freesurfer' branch):
   (d.do_surface && d.do_label &&
      decide (sl = SurfaceLabelSource.freesurfer) && use_FS_inputs,
    [.Annot, .FreeLabels, .SurfLabelFlow]),
   -- lines 590-592 (inner if do_input_vtk):
   (d.do_surface && d.do_label &&
      decide (sl = SurfaceLabelSource.freesurfer) && use_FS_inputs &&
      do_input_vtk,
    [.Surf, .SurfLabelFlow]),
   -- lines 593-598 (inner else):
   (d.do_surface && d.do_label &&
      decide (sl = SurfaceLabelSource.freesurfer) && use_FS_inputs &&
      !do_input_vtk,
    [.ConvertSurf, .SurfLabelFlow]),
   -- lines 606-627 (surface_labels == 'manual' branch):
   (d.do_surface && d.do_label && decide (sl = SurfaceLabelSource.manual),
    [.ManualSurfLabels, .SurfLabelFlow, .SurfaceAtlas]),
   -- lines 652-668 (if do_surface / if do_label):
   (d.do_surface && d.do_label,
    [.ReindexLabels, .SurfLabelFlow, .plug1, .plug2]),
   -- lines 676-752 and 792-809 (if do_surface / if do_shapes):
   (d.do_surface && d.do_shapes,
    [.WholeSurfShapeFlow, .SurfaceArea, .TravelDepth, .GeodesicDepth,
     .CurvNode]),
   -- lines 702-723 (additionally if do_fundi):
   (d.do_surface && d.do_shapes && d.do_fundi,
    [.RescaleTravelDepth, .WholeSurfShapeFlow, .TravelDepth]),
   -- lines 757-772 (additionally if do_freesurfer_convexity):
   (d.do_surface && d.do_shapes && d.do_freesurfer_convexity,
    [.ConvexNode, .WholeSurfShapeFlow, .Surf, .ConvertSurf]),
   -- lines 773-788 (additionally if do_freesurfer_thickness):
   (d.do_surface && d.do_shapes && d.do_freesurfer_thickness,
    [.ThickNode, .WholeSurfShapeFlow, .Surf, .ConvertSurf]),
   -- lines 793-798 (if do_input_vtk):
   (d.do_surface && d.do_shapes && do_input_vtk,
    [.Surf, .WholeSurfShapeFlow]),
   -- lines 799-804 (else):
   (d.do_surface && d.do_shapes && !do_input_vtk,
    [.ConvertSurf, .WholeSurfShapeFlow])]


/-- `refPieces`, second part: the surface feature-extraction blocks
(mindboggler.py lines 816-987). -/

def refPiecesFeatures (d : Derived) (_sl : SurfaceLabelSource)
    (_A _antsurfer _thickness _vertices : Bool) :
    List (Bool × List PyName) :=
  [ -- line 817 (if do_surface / if do_features):
   (d.do_surface && d.do_features, [.SurfFeatureFlow]),
   -- lines 822-868 (additionally if do_sulci): the folds node is wired to
   -- the travel-depth output of the shape flow (line 839) and the sulci node
   -- to the reindexed-labels output of the label flow (line 860):
   (d.do_surface && d.do_features && d.do_sulci,
    [.FoldsNode, .SurfFeatureFlow, .WholeSurfShapeFlow, .SulciNode,
     .SurfLabelFlow]),
   -- lines 877-901 (additionally if do_fundi): the fundus-per-fold node is
   -- wired to the folds node (line 889) and the shape flow (line 890):
   (d.do_surface && d.do_features && d.do_fundi,
    [.FoldFundi, .FoldsNode, .WholeSurfShapeFlow, .SurfFeatureFlow]),
   -- lines 903-960 (additionally if do_smooth_fundi):
   (d.do_surface && d.do_features && d.do_fundi && do_smooth_fundi,
    [.LikelihoodNode, .SurfFeatureFlow, .WholeSurfShapeFlow, .FoldsNode,
     .SmoothFundi, .FoldFundi]),
   -- lines 965-973:
   (d.do_surface && d.do_features && d.do_fundi, [.SulcusFundi]),
   -- lines 974-976 (if do_smooth_fundi):
   (d.do_surface && d.do_features && d.do_fundi && do_smooth_fundi,
    [.SurfFeatureFlow, .SmoothFundi, .SulcusFundi]),
   -- lines 977-979 (else):
   (d.do_surface && d.do_features && d.do_fundi && !do_smooth_fundi,
    [.SurfFeatureFlow, .FoldFundi, .SulcusFundi]),
   -- lines 980-987 (fundus per sulcus wired to the sulci node):
   (d.do_surface && d.do_features && d.do_fundi,
    [.SulciNode, .SulcusFundi, .WholeSurfShapeFlow, .SurfFeatureFlow])]


/-- `refPieces`, third part: the surface feature-shape and shape-table
blocks (mindboggler.py lines 994-1293). -/

def refPiecesTables (d : Derived) (_sl : SurfaceLabelSource)
    (A _antsurfer _thickness vertices : Bool) :
    List (Bool × List PyName) :=
  [ -- line 995 (if do_surface / if do_shapes):
   (d.do_surface && d.do_shapes, [.SurfFeatureShapeFlow]),
   -- lines 999-1022 (additionally if do_spectra):
   (d.do_surface && d.do_shapes && d.do_spectra,
    [.SpectraLabels, .SurfFeatureShapeFlow, .SurfLabelFlow,
     .WholeSurfShapeFlow]),
   -- lines 1026-1031 (additionally if do_sulci):
   (d.do_surface && d.do_shapes && d.do_spectra && d.do_sulci,
    [.SpectraSulci, .SpectraLabels, .SurfFeatureShapeFlow,
     .SurfFeatureFlow]),
   -- lines 1036-1057 (additionally if do_zernike):
   (d.do_surface && d.do_shapes && d.do_zernike,
    [.ZernikeLabels, .SurfFeatureShapeFlow, .SurfLabelFlow]),
   -- lines 1061-1066 (additionally if do_sulci):
   (d.do_surface && d.do_shapes && d.do_zernike && d.do_sulci,
    [.ZernikeSulci, .ZernikeLabels, .SurfFeatureShapeFlow,
     .SurfFeatureFlow]),
   -- lines 1077-1103 (if do_surface / if do_shapes):
   (d.do_surface && d.do_shapes, [.ShapeTables]),
   -- lines 1104-1106 (if do_label):
   (d.do_surface && d.do_shapes && d.do_label,
    [.SurfLabelFlow, .ShapeTables]),
   -- line 1108 (else):
   (d.do_surface && d.do_shapes && !d.do_label, [.ShapeTables]),
   -- lines 1109-1111 (if do_sulci):
   (d.do_surface && d.do_shapes && d.do_sulci,
    [.SurfFeatureFlow, .ShapeTables]),
   -- line 1113 (else):
   (d.do_surface && d.do_shapes && !d.do_sulci, [.ShapeTables]),
   -- lines 1114-1117 (if do_fundi):
   (d.do_surface && d.do_shapes && d.do_fundi,
    [.SurfFeatureFlow, .ShapeTables]),
   -- line 1119 (else):
   (d.do_surface && d.do_shapes && !d.do_fundi, [.ShapeTables]),
   -- lines 1121-1124 (if do_ants):
   (d.do_surface && d.do_shapes && A, [.ComposeAffine, .ShapeTables]),
   -- lines 1126-1127 (else):
   (d.do_surface && d.do_shapes && !A, [.ShapeTables]),
   -- lines 1129-1137:
   (d.do_surface && d.do_shapes, [.WholeSurfShapeFlow, .ShapeTables]),
   -- lines 1138-1147 (freesurfer convexity and thickness):
   (d.do_surface && d.do_shapes && d.do_freesurfer_convexity,
    [.WholeSurfShapeFlow, .ShapeTables]),
   (d.do_surface && d.do_shapes && d.do_freesurfer_thickness,
    [.WholeSurfShapeFlow, .ShapeTables]),
   -- lines 1150-1162 (if do_spectra, inner if do_sulci):
   (d.do_surface && d.do_shapes && d.do_spectra,
    [.SurfFeatureShapeFlow, .ShapeTables]),
   (d.do_surface && d.do_shapes && d.do_spectra && d.do_sulci,
    [.SurfFeatureShapeFlow, .ShapeTables]),
   -- lines 1173-1185 (if do_zernike, inner if do_sulci):
   (d.do_surface && d.do_shapes && d.do_zernike,
    [.SurfFeatureShapeFlow, .ShapeTables]),
   (d.do_surface && d.do_shapes && d.do_zernike && d.do_sulci,
    [.SurfFeatureShapeFlow, .ShapeTables]),
   -- lines 1195-1201:
   (d.do_surface && d.do_shapes, [.ShapeTables]),
   -- lines 1205-1272 (if args.vertices):
   (d.do_surface && d.do_shapes && vertices, [.VertexTable]),
   (d.do_surface && d.do_shapes && vertices && d.do_label,
    [.SurfLabelFlow, .VertexTable]),
   (d.do_surface && d.do_shapes && vertices && d.do_sulci,
    [.SurfFeatureFlow, .VertexTable]),
   (d.do_surface && d.do_shapes && vertices && d.do_fundi,
    [.SurfFeatureFlow, .VertexTable]),
   (d.do_surface && d.do_shapes && vertices && A,
    [.ComposeAffine, .VertexTable]),
   (d.do_surface && d.do_shapes && vertices,
    [.WholeSurfShapeFlow, .VertexTable]),
   (d.do_surface && d.do_shapes && vertices && d.do_freesurfer_thickness,
    [.WholeSurfShapeFlow, .VertexTable]),
   (d.do_surface && d.do_shapes && vertices && d.do_freesurfer_convexity,
    [.WholeSurfShapeFlow, .VertexTable])]


/-- `refPieces`, fourth part: the volume workflows (mindboggler.py lines
1303-1928). -/

def refPiecesVolumes (d : Derived) (_sl : SurfaceLabelSource)
    (A antsurfer thickness _vertices : Bool) :
    List (Bool × List PyName) :=
  [ -- lines 1313-1330 (if do_volumes and do_label / if do_input_fs_labels):
   (d.do_volumes && d.do_label && do_input_fs_labels,
    [.asegNifti, .filledNifti]),
   -- lines 1334-1384 (else):
   (d.do_volumes && d.do_label && !do_input_fs_labels,
    [.mghOrig, .asegMGH, .asegMGH2Nifti, .filledMGH, .filledMGH2Nifti]),
   -- lines 1391-1411:
   (d.do_volumes && d.do_label, [.VolLabelFlow, .JoinSegs]),
   -- lines 1412-1416 (if do_input_fs_labels):
   (d.do_volumes && d.do_label && do_input_fs_labels,
    [.asegNifti, .filledNifti, .VolLabelFlow]),
   -- lines 1417-1421 (else):
   (d.do_volumes && d.do_label && !do_input_fs_labels,
    [.asegMGH2Nifti, .filledMGH2Nifti, .VolLabelFlow]),
   -- lines 1423-1425 (if do_ants):
   (d.do_volumes && d.do_label && A, [.FetchANTs, .VolLabelFlow]),
   -- line 1427 (else):
   (d.do_volumes && d.do_label && !A, [.JoinSegs]),
   -- lines 1428-1443:
   (d.do_volumes && d.do_label,
    [.JoinSegs, .VolLabelFlow, .RemoveMedial]),
   -- lines 1444-1446 (if do_input_fs_labels):
   (d.do_volumes && d.do_label && do_input_fs_labels,
    [.asegNifti, .VolLabelFlow]),
   -- lines 1447-1449 (else):
   (d.do_volumes && d.do_label && !do_input_fs_labels,
    [.asegMGH2Nifti, .VolLabelFlow]),
   -- lines 1456-1515:
   (d.do_volumes && d.do_label,
    [.FillBrain, .VolLabelFlow, .JoinSegs, .RemoveMedial, .SplitBrain,
     .CreateHemiMask, .MaskHemi]),
   -- lines 1520-1609 (if do_ants):
   (d.do_volumes && d.do_label && A,
    [.xfm, .VolLabelFlow, .warp_inverse_Booleans, .FetchANTs, .FetchAtlas,
     .WarpToSubjectFileList, .noANTSwm, .noANTSgm, .MaskHemi, .ants2gray,
     .ants2white, .antslabels]),
   -- lines 1614-1652 (if do_surface):
   (d.do_volumes && d.do_label && d.do_surface,
    [.FS2gray, .VolLabelFlow, .JoinSegs, .SurfLabelFlow, .noFSgm]),
   -- lines 1645-1647 (inner if do_input_fs_labels):
   (d.do_volumes && d.do_label && d.do_surface && do_input_fs_labels,
    [.asegNifti, .VolLabelFlow]),
   -- lines 1648-1650 (inner else):
   (d.do_volumes && d.do_label && d.do_surface && !do_input_fs_labels,
    [.asegMGH2Nifti, .VolLabelFlow]),
   -- lines 1654-1689:
   (d.do_volumes && d.do_label && d.do_surface,
    [.FS2white, .VolLabelFlow, .JoinSegs, .noFSgm, .FSlabels, .FS2gray]),
   -- lines 1694-1718 (if antsurfer_labels and do_ants):
   (d.do_volumes && d.do_label && antsurfer && A,
    [.ANTSwFSg, .antslabels, .VolLabelFlow, .ants2white, .FS2gray,
     .FSwANTSg, .FS2white, .ants2gray]),
   -- lines 1764-1806 (if do_shapes):
   (d.do_volumes && d.do_label && d.do_shapes,
    [.VolShapeFlow, .FSVolTable, .FSlabelVolumes, .VolLabelFlow]),
   -- lines 1807-1826 (additionally if do_ants):
   (d.do_volumes && d.do_label && d.do_shapes && A,
    [.antsLabelVolumes, .FSlabelVolumes, .VolShapeFlow, .VolLabelFlow,
     .antsVolTable, .FSVolTable]),
   -- lines 1827-1871 (additionally if antsurfer_labels):
   (d.do_volumes && d.do_label && d.do_shapes && A && antsurfer,
    [.FSgmANTSwmLabelVolumes, .FSlabelVolumes, .VolShapeFlow,
     .VolLabelFlow, .FSgmANTSwmVolTable, .FSVolTable,
     .FSwANTSgLabelVolumes, .ANTSgmFSwmVolTable]),
   -- lines 1876-1912 (if args.thickness):
   (d.do_volumes && d.do_label && d.do_shapes && thickness,
    [.FSgmThicknesses, .VolShapeFlow, .JoinSegs, .VolLabelFlow]),
   -- lines 1916-1928 (additionally if do_ants):
   (d.do_volumes && d.do_label && d.do_shapes && thickness && A,
    [.ANTSgmThicknesses, .FSgmThicknesses, .VolShapeFlow, .MaskHemi,
     .VolLabelFlow])]


/-- The references to tracked names made by the assembly script of
mindboggler.py (lines 341-1928), as guarded blocks in source order: each
entry's guard is the conjunction of the `if` conditions enclosing the block,
and its list holds the tracked names the block mentions (first occurrence
each; repeated mentions within one block are recorded once).  References to
unconditionally bound prelude names are not tracked since they cannot fail.
String-keyed lookups of nodes inside a workflow (for example
`'Fundus_per_sulcus.fundus_per_sulcus'`) are not Python name references and
are outside this model. -/
def refPieces (d : Derived) (sl : SurfaceLabelSource)
    (A antsurfer thickness vertices : Bool) : List (Bool × List PyName) :=
  refPiecesSurfIn d sl A antsurfer thickness vertices ++
    refPiecesFeatures d sl A antsurfer thickness vertices ++
    refPiecesTables d sl A antsurfer thickness vertices ++
    refPiecesVolumes d sl A antsurfer thickness vertices

/-- The tracked names referenced by the assembly script under the given
configuration that are not bound under it: the script raises an unhandled
Python `NameError` at the first such reference, and completes the module-level
assembly without a `NameError` exactly when this list is empty. -/
def undefinedRefs (a : Args) (A : Bool) : List PyName :=
  (gjoin (refPieces (deriveFlags a) a.surface_labels A a.antsurfer_labels
      a.thickness a.vertices)).filter
    (fun n => !(definedCond (deriveFlags a) a.surface_labels A
      a.antsurfer_labels a.thickness a.vertices n))

/-- An invocation passing `--fundi` together with `--no_surfaces`. -/
def argsFundiNoSurfaces : Args :=
  { argsDefault with fundi := true, no_surfaces := true }

/-- An invocation passing `--fundi` only. -/
def argsFundiOnly : Args :=
  { argsDefault with fundi := true }

/-- Helper: a nested boolean-gated conditional evaluates to `true` only when
the outer gate is `true` and the inner decidable condition holds. -/
theorem ite_gate_true {c : Bool} {p : Prop} [Decidable p]
    (h : (if c = true then (if p then true else false) else false) = true) :
    c = true ∧ p := by
  split at h
  · split at h
    · exact ⟨by assumption, by assumption⟩
    · cases h
  · cases h

/-- C1: if `--antsurfer_labels` is set, the derived `do_surface`, `do_volumes`
and `do_label` flags are all true, whatever the values of `--no_surfaces`,
`--no_volumes` and `--no_labels` (the combined flag overwrites all three
exclusion flags before derivation, mindboggler.py lines 201-216). -/
theorem antsurfer_forces_subgraphs (a : Args)
    (h : a.antsurfer_labels = true) :
    (deriveFlags a).do_surface = true ∧ (deriveFlags a).do_volumes = true ∧
      (deriveFlags a).do_label = true := by
  simp [deriveFlags, h]

/-- Witness for C1: with `--antsurfer_labels` together with all three
exclusion flags, the three derived flags are still true. -/
theorem antsurfer_forces_subgraphs_witness :
    (deriveFlags argsAntsurferAllExcluded).do_surface = true ∧
      (deriveFlags argsAntsurferAllExcluded).do_volumes = true ∧
      (deriveFlags argsAntsurferAllExcluded).do_label = true :=
  antsurfer_forces_subgraphs argsAntsurferAllExcluded rfl

/-- C2 (amended): the hemisphere sweep dimension `['lh', 'rh']` is
duplicate-free, but the subject and atlas dimensions are used verbatim — the
subject dimension is exactly the `SUBJECTS` arguments and the atlas dimension
is the built-in atlas volume followed by the `--atlases` values, with no
deduplication anywhere (mindboggler.py lines 168, 282-285, 310-320). -/
theorem sweep_dimensions_verbatim (a : Args) :
    hemisIterable.Nodup ∧ subjectsIterable a = a.SUBJECTS ∧
      atlas_volumes a =
        "OASIS-TRT-20_jointfusion_DKT31_CMA_labels_in_MNI152.nii.gz" ::
          a.atlases.getD [] := by
  refine ⟨by decide, rfl, ?_⟩
  cases h : a.atlases <;> simp [atlas_volumes, h]

/-- Counterexample to C2 as stated: on a command line that repeats a subject
and re-lists the built-in atlas, both the subject and the atlas sweep
dimensions contain duplicate values. -/
theorem sweep_dimensions_duplicates :
    subjectsIterable argsDupSweep = ["sub1", "sub1"] ∧
      ¬ (subjectsIterable argsDupSweep).Nodup ∧
      ¬ (atlas_volumes argsDupSweep).Nodup := by
  decide

/-- C3: `--ants_data` with a nonempty token list of any length other than two
makes the configuration phase fail with the fatal message of mindboggler.py
line 179, before any workflow construction (the graph builder consumes the
`Config` that `configSetup` failed to produce); exactly two tokens are taken
as the data directory and file stem with ANTs processing enabled; an absent
flag raises no error and leaves ANTs processing disabled. -/
theorem ants_data_validation (env : String → Option String) (dc : DataConfig)
    (a : Args) (fs : List String) :
    (a.freesurfer_data = some fs →
      ∀ l, a.ants_data = some l → l ≠ [] → l.length ≠ 2 →
        configSetup env dc a =
          Except.error "--ants_data should be followed by two strings") ∧
    (∀ d s, parse_ants_data (some [d, s]) = Except.ok (true, some (d, s))) ∧
    parse_ants_data none = Except.ok (false, none) := by
  refine ⟨fun hfs l hl hne hlen => ?_, fun d s => rfl, rfl⟩
  have hp : parse_ants_data a.ants_data =
      Except.error "--ants_data should be followed by two strings" := by
    rw [hl]
    rcases l with _ | ⟨d, _ | ⟨s, _ | ⟨t, r⟩⟩⟩
    · exact absurd rfl hne
    · rfl
    · exact absurd rfl hlen
    · rfl
  simp [configSetup, hfs, hp, Bind.bind, Except.bind]

/-- Witness for C3: a single-token `--ants_data` fails fatally; two tokens
enable ANTs with directory and stem; an absent flag stays disabled. -/
theorem ants_data_validation_witness :
    configSetup envEmpty dcEx argsBadAnts =
        Except.error "--ants_data should be followed by two strings" ∧
      parse_ants_data (some ["/ants", "stem"]) =
        Except.ok (true, some ("/ants", "stem")) ∧
      parse_ants_data none = Except.ok (false, none) :=
  ⟨(ants_data_validation envEmpty dcEx argsBadAnts ["/data/freesurfer"]).1
      rfl ["dirOnly"] rfl (by decide) (by decide),
    (ants_data_validation envEmpty dcEx argsBadAnts []).2.1 "/ants" "stem",
    (ants_data_validation envEmpty dcEx argsBadAnts []).2.2⟩

/-- C4: the derived `do_spectra` flag is true only if `--spectra` is positive
and the parent measurement category is enabled (`do_shapes` together with
`do_label` or `do_features`), and likewise `do_zernike` for `--moments`
(mindboggler.py lines 222-231). -/
theorem spectra_zernike_gating (a : Args) :
    ((deriveFlags a).do_spectra = true →
      0 < a.spectra ∧ (deriveFlags a).do_shapes = true ∧
        ((deriveFlags a).do_label = true ∨
          (deriveFlags a).do_features = true)) ∧
    ((deriveFlags a).do_zernike = true →
      0 < a.moments ∧ (deriveFlags a).do_shapes = true ∧
        ((deriveFlags a).do_label = true ∨
          (deriveFlags a).do_features = true)) := by
  constructor <;> intro h <;>
    simp only [deriveFlags] at h ⊢ <;>
    obtain ⟨hc, hs⟩ := ite_gate_true h <;>
    rw [Bool.and_eq_true] at hc <;>
    exact ⟨hs, hc.2, by rw [Bool.or_eq_true] at hc; exact hc.1⟩

/-- Witness for C4: with `--spectra 10 --moments 10` under default flags both
derived flags are on, so both gates are satisfied. -/
theorem spectra_zernike_gating_witness :
    (0 < argsSpectraMoments.spectra ∧
      (deriveFlags argsSpectraMoments).do_shapes = true ∧
        ((deriveFlags argsSpectraMoments).do_label = true ∨
          (deriveFlags argsSpectraMoments).do_features = true)) ∧
    (0 < argsSpectraMoments.moments ∧
      (deriveFlags argsSpectraMoments).do_shapes = true ∧
        ((deriveFlags argsSpectraMoments).do_label = true ∨
          (deriveFlags argsSpectraMoments).do_features = true)) :=
  ⟨(spectra_zernike_gating argsSpectraMoments).1 (by decide),
    (spectra_zernike_gating argsSpectraMoments).2 (by decide)⟩

/-- C5: `--cluster` selects the distributed-queue (CondorDAGMan) policy;
otherwise `-n` greater than one selects the bounded multi-process policy with
that worker count, and `-n 1` (the default for an absent flag) selects the
sequential run (mindboggler.py lines 1955-1968). -/
theorem exec_policy_selection (n : Int) :
    selectExecPolicy true n = ExecPolicy.condorDAGMan ∧
      (1 < n → selectExecPolicy false n = ExecPolicy.multiProc n) ∧
      (n = 1 → selectExecPolicy false n = ExecPolicy.linear) := by
  refine ⟨rfl, fun h => ?_, fun h => ?_⟩
  · have hn : n ≠ 0 := by omega
    simp [selectExecPolicy, hn, h]
  · subst h
    rfl

/-- Witness for C5: the three policies at `-n 3` and `-n 1`. -/
theorem exec_policy_selection_witness :
    selectExecPolicy true 3 = ExecPolicy.condorDAGMan ∧
      selectExecPolicy false 3 = ExecPolicy.multiProc 3 ∧
      selectExecPolicy false 1 = ExecPolicy.linear :=
  ⟨(exec_policy_selection 3).1, (exec_policy_selection 3).2.1 (by decide),
    (exec_policy_selection 1).2.2 rfl⟩

/-- C6: in the configured substitution list the `('_hemi_lh', 'left_surface')`
rule is declared before `('smooth_skeletons.vtk', 'smooth_fundi.vtk')`, and
applying all configured rules in declared order — each on the result of the
previous one — to `sub/_hemi_lh/out/smooth_skeletons.vtk` yields
`sub/left_surface/out/smooth_fundi.vtk`. -/
theorem sink_substitution_order_and_result :
    substitutions.get? 0 = some ("_hemi_lh", "left_surface") ∧
      substitutions.get? 4 =
        some ("smooth_skeletons.vtk", "smooth_fundi.vtk") ∧
      applySubstitutions substitutions
          "sub/_hemi_lh/out/smooth_skeletons.vtk" =
        "sub/left_surface/out/smooth_fundi.vtk" := by
  refine ⟨rfl, rfl, ?_⟩
  decide

/-- C7: the cache root resolves to the cache environment variable when
present, else the platform default of the data configuration, and after setup
the resolved directory exists (it is created exactly when absent); this
single resolution happens once in the straight-line configuration phase
(mindboggler.py lines 250-255). -/
theorem cache_root_resolution (env : String → Option String) (dc : DataConfig)
    (fsExists : String → Bool) :
    (∀ v, env dc.cache_env = some v → resolveCacheDir env dc = v) ∧
      (env dc.cache_env = none →
        resolveCacheDir env dc = dc.cache_default) ∧
      afterCacheSetup fsExists (resolveCacheDir env dc)
        (resolveCacheDir env dc) = true := by
  refine ⟨fun v hv => ?_, fun hv => ?_, ?_⟩
  · simp [resolveCacheDir, hv]
  · simp [resolveCacheDir, hv]
  · unfold afterCacheSetup
    split
    · assumption
    · simp

/-- Witness for C7: with the override variable set the custom directory wins;
without it the platform default is used and gets created on an empty file
system. -/
theorem cache_root_resolution_witness :
    resolveCacheDir envCacheSet dcEx = "/custom/cache" ∧
      resolveCacheDir envEmpty dcEx = "/root/.cache/mindboggle" ∧
      afterCacheSetup fsNone (resolveCacheDir envEmpty dcEx)
        (resolveCacheDir envEmpty dcEx) = true :=
  ⟨(cache_root_resolution envCacheSet dcEx fsNone).1 "/custom/cache" rfl,
    (cache_root_resolution envEmpty dcEx fsNone).2.1 rfl,
    (cache_root_resolution envEmpty dcEx fsNone).2.2⟩

/-- C10: the `MINDBOGGLE_TOOLS` environment variable is read unconditionally
in the configuration phase (mindboggler.py line 246), before any workflow
construction; whenever it is absent, every invocation that passes the earlier
configuration steps — for any feature-flag assignment, including ones that
disable all shape computations — fails with the unhandled `KeyError`. -/
theorem tools_env_read_unconditional (env : String → Option String)
    (dc : DataConfig) (a : Args)
    (hfs : a.freesurfer_data ≠ none ∨ env "SUBJECTS_DIR" ≠ none)
    (hants : a.ants_data = none ∨ ∃ d s, a.ants_data = some [d, s])
    (htools : env "MINDBOGGLE_TOOLS" = none) :
    configSetup env dc a = Except.error "KeyError: MINDBOGGLE_TOOLS" := by
  have hp : ∃ r, parse_ants_data a.ants_data = Except.ok r := by
    rcases hants with h | ⟨d, s, h⟩ <;> rw [h]
    · exact ⟨(false, none), rfl⟩
    · exact ⟨(true, some (d, s)), rfl⟩
  obtain ⟨r, hr⟩ := hp
  rcases hf : a.freesurfer_data with _ | fsd
  · rcases hfs with h | h
    · exact absurd hf h
    · rcases he : env "SUBJECTS_DIR" with _ | v
      · exact absurd he h
      · simp [configSetup, hf, he, hr, htools, Bind.bind, Except.bind]
  · simp [configSetup, hf, hr, htools, Bind.bind, Except.bind]

/-- Witness for C10: with all four exclusion flags set (no surfaces, volumes,
labels or shapes) and `SUBJECTS_DIR` available but `MINDBOGGLE_TOOLS` absent,
configuration still fails with the `KeyError`. -/
theorem tools_env_read_unconditional_witness :
    configSetup envOnlySubjectsDir dcEx argsAllOff =
      Except.error "KeyError: MINDBOGGLE_TOOLS" :=
  tools_env_read_unconditional envOnlySubjectsDir dcEx argsAllOff
    (Or.inl (by decide)) (Or.inl rfl) (by decide)

/-- Helper: an element of a guarded block whose guard is true is in the
concatenation of guarded blocks. -/
theorem mem_gjoin_of {α : Type} {k : α} (p : Bool × List α)
    (hc : p.1 = true) (hk : k ∈ p.2) :
    ∀ ps : List (Bool × List α), p ∈ ps → k ∈ gjoin ps := by
  intro ps
  induction ps with
  | nil => intro hp; cases hp
  | cons q rest ih =>
    intro hp
    simp only [gjoin]
    rcases List.mem_cons.mp hp with rfl | h
    · refine List.mem_append_left _ ?_
      rw [if_pos hc]
      exact hk
    · exact List.mem_append_right _ (ih h)

/-- Helper: the concatenation of guarded blocks is contained in the
concatenation of all blocks with the guards discarded. -/
theorem gjoin_subset_flatten {α : Type} :
    ∀ (ps : List (Bool × List α)) (k : α), k ∈ gjoin ps →
      k ∈ (ps.map Prod.snd).flatten := by
  intro ps
  induction ps with
  | nil => intro k h; simp [gjoin] at h
  | cons q rest ih =>
    intro k h
    simp only [gjoin] at h
    simp only [List.map_cons, List.flatten_cons]
    rcases List.mem_append.mp h with h1 | h2
    · refine List.mem_append_left _ ?_
      by_cases hc : q.1 = true
      · rw [if_pos hc] at h1; exact h1
      · rw [if_neg hc] at h1; cases h1
    · exact List.mem_append_right _ (ih k h2)

/-- C8: every sink connection created during graph assembly, under every flag
configuration, routes to a destination key whose category segment is one of
`labels`, `shapes`, `features`, `tables`. -/
theorem sink_destinations_categorized (a : Args) (A : Bool) (k : String)
    (hk : k ∈ sinkDests a A) :
    sinkCategory k ∈ ["labels", "shapes", "features", "tables"] := by
  have h1 : k ∈ ((sinkPieces a A).map Prod.snd).flatten :=
    gjoin_subset_flatten _ _ hk
  have h2 : ((sinkPieces a A).map Prod.snd).flatten = allSinkDests := rfl
  rw [h2] at h1
  have hall : ∀ x ∈ allSinkDests,
      sinkCategory x ∈ ["labels", "shapes", "features", "tables"] := by
    decide
  exact hall k h1

/-- Witness for C8: the combined-segmentation destination key, present under
the default configuration, is in the `labels` category. -/
theorem sink_destinations_categorized_witness :
    sinkCategory "labels.@cortex_and_noncortex_file" ∈
      ["labels", "shapes", "features", "tables"] :=
  sink_destinations_categorized argsDefault false
    "labels.@cortex_and_noncortex_file" (by decide)

/-- Counterexample to C9 as stated: with `--fundi --no_surfaces` the fundi
feature is enabled without sulci, yet assembly references no undefined name —
the whole surface-feature block (and with it the fundus wiring) is skipped
because the surface sub-graph is disabled, so no undefined-name failure
occurs. -/
theorem fundi_no_surfaces_assembles :
    argsFundiNoSurfaces.fundi = true ∧ argsFundiNoSurfaces.sulci = false ∧
      undefinedRefs argsFundiNoSurfaces false = [] := by
  decide

/-- C9 (amended): when the surface sub-graph is enabled, graph assembly
references an undefined module-level name — and so fails with an unhandled
Python `NameError` before any execution — whenever fundi are enabled without
sulci (the fundus wiring references the folds node built only under sulci),
and whenever sulci or fundi are enabled while surface labels or surface
shapes are disabled (the feature wiring references the label flow or the
shape flow that was never constructed). -/
theorem feature_wiring_undefined_names (a : Args) (A : Bool)
    (hS : (deriveFlags a).do_surface = true)
    (hcase : (a.fundi = true ∧ a.sulci = false) ∨
      ((a.sulci = true ∨ a.fundi = true) ∧
        ((deriveFlags a).do_label = false ∨
          (deriveFlags a).do_shapes = false))) :
    undefinedRefs a A ≠ [] := by
  cases hsu : a.sulci with
  | false =>
    have hfu : a.fundi = true := by
      rcases hcase with ⟨h1, _⟩ | ⟨h1, _⟩
      · exact h1
      · rcases h1 with h | h
        · rw [hsu] at h; cases h
        · exact h
    have hF : (deriveFlags a).do_features = true := by
      simp [deriveFlags, hfu]
    have hFu : (deriveFlags a).do_fundi = true := by
      simp [deriveFlags, hfu]
    have hSu : (deriveFlags a).do_sulci = false := by
      simp [deriveFlags, hsu]
    have hguard : ((deriveFlags a).do_surface &&
        (deriveFlags a).do_features && (deriveFlags a).do_fundi) = true := by
      simp [hS, hF, hFu]
    have hmem : PyName.FoldsNode ∈ gjoin (refPieces (deriveFlags a)
        a.surface_labels A a.antsurfer_labels a.thickness a.vertices) := by
      refine mem_gjoin_of
        ((deriveFlags a).do_surface && (deriveFlags a).do_features &&
            (deriveFlags a).do_fundi,
          [PyName.FoldFundi, PyName.FoldsNode, PyName.WholeSurfShapeFlow,
            PyName.SurfFeatureFlow]) hguard
        (List.mem_cons_of_mem _ (List.mem_cons_self _ _)) _ ?_
      simp [refPieces, refPiecesFeatures]
    have hundef : (!(definedCond (deriveFlags a) a.surface_labels A
        a.antsurfer_labels a.thickness a.vertices PyName.FoldsNode)) =
          true := by
      simp [definedCond, hSu]
    exact List.ne_nil_of_mem
      (show PyName.FoldsNode ∈ undefinedRefs a A from
        List.mem_filter.mpr ⟨hmem, hundef⟩)
  | true =>
    have hSu : (deriveFlags a).do_sulci = true := by
      simp [deriveFlags, hsu]
    have hF : (deriveFlags a).do_features = true := by
      simp [deriveFlags, hsu]
    have hguard : ((deriveFlags a).do_surface &&
        (deriveFlags a).do_features && (deriveFlags a).do_sulci) = true := by
      simp [hS, hF, hSu]
    have hmem : ∀ k ∈ ([PyName.FoldsNode, PyName.SurfFeatureFlow,
        PyName.WholeSurfShapeFlow, PyName.SulciNode, PyName.SurfLabelFlow] :
          List PyName),
        k ∈ gjoin (refPieces (deriveFlags a) a.surface_labels A
          a.antsurfer_labels a.thickness a.vertices) := by
      intro k hk
      refine mem_gjoin_of
        ((deriveFlags a).do_surface && (deriveFlags a).do_features &&
            (deriveFlags a).do_sulci,
          [PyName.FoldsNode, PyName.SurfFeatureFlow,
            PyName.WholeSurfShapeFlow, PyName.SulciNode,
            PyName.SurfLabelFlow]) hguard hk _ ?_
      simp [refPieces, refPiecesFeatures]
    cases hsh : (deriveFlags a).do_shapes with
    | false =>
      have hundef : (!(definedCond (deriveFlags a) a.surface_labels A
          a.antsurfer_labels a.thickness a.vertices
          PyName.WholeSurfShapeFlow)) = true := by
        simp [definedCond, hsh]
      exact List.ne_nil_of_mem
        (show PyName.WholeSurfShapeFlow ∈ undefinedRefs a A from
          List.mem_filter.mpr ⟨hmem _ (by decide), hundef⟩)
    | true =>
      have hlab : (deriveFlags a).do_label = false := by
        rcases hcase with ⟨_, h2⟩ | ⟨_, h2⟩
        · rw [hsu] at h2; cases h2
        · rcases h2 with h | h
          · exact h
          · rw [h] at hsh; cases hsh
      have hundef : (!(definedCond (deriveFlags a) a.surface_labels A
          a.antsurfer_labels a.thickness a.vertices
          PyName.SurfLabelFlow)) = true := by
        simp [definedCond, hlab]
      exact List.ne_nil_of_mem
        (show PyName.SurfLabelFlow ∈ undefinedRefs a A from
          List.mem_filter.mpr ⟨hmem _ (by decide), hundef⟩)

/-- Witness for C9 (amended): `--fundi` alone (surfaces enabled, sulci off)
leaves at least one referenced name undefined during assembly. -/
theorem feature_wiring_undefined_names_witness :
    undefinedRefs argsFundiOnly false ≠ [] :=
  feature_wiring_undefined_names argsFundiOnly false (by decide)
    (Or.inl ⟨rfl, rfl⟩)
